import Mathlib

/-!
# Verification of the vizia winit frame pipeline

Shallow embedding of `Application::run` from
`src/crates/vizia_winit/src/application.rs` (the `MainEventsCleared`
pipeline, the window-event handlers, and the `WinitEventProxy`), together
with models of the vizia_core stage functions it calls.  Stage functions
whose bodies live in vizia_core (not under `src/`) are modelled from the
specification and carry a doc comment saying so; everything else is
translated from the source.

Physical and logical sizes are modelled with rationals, which is exact for
the concrete scale factors considered here.
-/

namespace ViziaWinit

/-- An internal vizia event.  `redraw` is the synthetic
`Event::new(WindowEvent::Redraw)` sent by the animation branch, `wake` is the
empty `Event::new(())` sent by the queued-events check; all other payloads
are opaque. -/
inductive Ev where
  | redraw : Ev
  | wake : Ev
  | user : Nat → Ev
deriving DecidableEq

/-- winit `ControlFlow` values used by `Application::run`. -/
inductive ControlFlow where
  | poll : ControlFlow
  | wait : ControlFlow
  | exit : ControlFlow
deriving DecidableEq

/-- Root style width/height entries (`Units::Pixels` is the only variant the
resize handlers write). -/
inductive Units where
  | pixels : ℚ → Units
  | auto : Units
deriving DecidableEq

/-- The two panics the main loop can hit when a proxy send fails:
`.unwrap()` on the animation-branch redraw send (line 300) and
`.expect("Failed to send event")` on the idle wake-up send (line 333). -/
inductive Panic where
  | sendRedrawUnwrap : Panic
  | sendWakeExpect : Panic
deriving DecidableEq

/-- The pipeline stages of one `MainEventsCleared` dispatch, in the order
the claims name them. -/
inductive Stage where
  | eventFlush : Stage
  | dataPropagation : Stage
  | accessibilitySync : Stage
  | styleResolution : Stage
  | animationCheck : Stage
  | visualUpdate : Stage
  | redrawArbiter : Stage
  | idleHook : Stage
  | continuationDecision : Stage
deriving DecidableEq

/-- The observable state the pipeline reads and writes: the context event
queue, the per-window invalidation flags, the root entity style/cache
entries, and the stored control flow (`stored_control_flow` in the source).
The fields `dirtyBindingEvents`, `idleEvents`, `styleSetsRelayout`,
`styleSetsRedraw` and `visualSetsRedraw` parameterize the behaviour of the
spec-modelled vizia_core stages (which bindings will emit which events,
whether style resolution marks layout or paint dirty, and so on);
`windowPresent` records whether the root window view is in the views map
(it is inserted at startup, line 210). -/
structure AppState where
  queue : List Ev
  dirtyBindingEvents : List Ev
  idleEvents : List Ev
  treeDirty : Bool
  needsRestyle : Bool
  needsRelayout : Bool
  needsRedraw : Bool
  hasAnimations : Bool
  styleSetsRelayout : Bool
  styleSetsRedraw : Bool
  visualSetsRedraw : Bool
  windowPresent : Bool
  dpiFactor : ℚ
  cacheWidth : ℚ
  cacheHeight : ℚ
  clipWidth : ℚ
  clipHeight : ℚ
  styleWidth : Units
  styleHeight : Units
  storedControlFlow : ControlFlow
deriving DecidableEq

/-- Configuration fixed before `event_loop.run`: the caller default
(`should_poll`), whether the proxy channel is still open, whether an
`on_idle` callback was registered, the handler reactions used by the event
flush (which events a dispatch enqueues), and the fuel bounding the flush
fixed-point loop (the source loop is unbounded; fuel exhaustion models
non-termination). -/
structure Params where
  defaultShouldPoll : Bool
  proxyOpen : Bool
  hasIdleCallback : Bool
  react : Ev → List Ev
  flushFuel : Nat

/-- Observable effects of one dispatch: the stage execution order, the
platform `request_redraw` calls split by call site, the events sent through
the event-loop proxy, the accesskit updates, and snapshots of the queue at
the moments the claims talk about. -/
structure Effects where
  trace : List Stage := []
  redrawByAnimation : Nat := 0
  redrawByArbiter : Nat := 0
  proxySends : List Ev := []
  accessUpdates : Nat := 0
  queueAtStyle : List Ev := []
  needsRedrawAtArbiter : Bool := false
  queueAfterIdle : List Ev := []
deriving DecidableEq

/-- The stage order the specification prescribes for one iteration. -/
def pipelineOrder : List Stage :=
  [Stage.eventFlush, Stage.dataPropagation, Stage.accessibilitySync, Stage.styleResolution,
   Stage.animationCheck, Stage.visualUpdate, Stage.redrawArbiter, Stage.idleHook,
   Stage.continuationDecision]

/-- From application.rs lines 63-65: `WinitEventProxy::send` forwards to
`EventLoopProxy::send_event` and maps a channel failure to `Err(())`, a
non-fatal result returned to the sender.  `channelOpen` abstracts whether
the event loop is still alive. -/
def winitEventProxySendResult (channelOpen : Bool) : Except Unit Unit :=
  if channelOpen then Except.ok () else Except.error ()

/-- Modelled from the spec: one call of `EventManager::flush_events`
(vizia_core, not under src/) drains the queue once, dispatching every event
in insertion order; each dispatch may enqueue new events, given here by the
reaction function. -/
def flushOnce (react : Ev → List Ev) (q : List Ev) : List Ev :=
  q.flatMap react

/-- The `while event_manager.flush_events(cx.0) {}` loop of line 283,
bounded by fuel: flushing repeats while the queue is non-empty. -/
def flushLoop (react : Ev → List Ev) : Nat → List Ev → List Ev
  | 0, q => q
  | Nat.succ n, q => if q.isEmpty then q else flushLoop react n (flushOnce react q)

/-- Modelled from the spec: `process_data_updates` (vizia_core, not under
src/) re-evaluates the dirty bindings; each produces zero or more events
appended to the Event Queue, and it does not itself loop to a fixed
point. -/
def processDataUpdates (s : AppState) : AppState :=
  { s with queue := s.queue ++ s.dirtyBindingEvents, dirtyBindingEvents := [] }

/-- Modelled from the spec: `process_tree_updates` (vizia_core, not under
src/) invokes the accesskit sink once per invalidated batch when the tree
shape changed and never otherwise; the batch count for one call. -/
def accessUpdateCount (s : AppState) : Nat :=
  if s.treeDirty then 1 else 0

/-- Modelled from the spec: the state effect of `process_tree_updates` is to
consume the tree-shape invalidation. -/
def processTreeUpdates (s : AppState) : AppState :=
  if s.treeDirty then { s with treeDirty := false } else s

/-- Modelled from the spec: `process_style_updates` (vizia_core, not under
src/) consumes `needs_restyle`, clearing it, and may set `needs_relayout`
and/or `needs_redraw` as a consequence. -/
def processStyleUpdates (s : AppState) : AppState :=
  if s.needsRestyle then
    { s with needsRestyle := false,
             needsRelayout := s.needsRelayout || s.styleSetsRelayout,
             needsRedraw := s.needsRedraw || s.styleSetsRedraw }
  else s

/-- Modelled from the spec: `has_animations` (vizia_core, not under src/)
is a cheap predicate on the animation set. -/
def has_animations (s : AppState) : Bool :=
  s.hasAnimations

/-- Modelled from the spec: `process_visual_updates` (vizia_core, not under
src/) consumes `needs_relayout`, recomputing geometry, and may mark the
surface dirty (`needs_redraw`) as a consequence. -/
def processVisualUpdates (s : AppState) : AppState :=
  if s.needsRelayout then
    { s with needsRelayout := false, needsRedraw := s.needsRedraw || s.visualSetsRedraw }
  else s

/-- From application.rs lines 295-309: the branch executed when
`has_animations` is true.  It forces `ControlFlow::Poll`, sends a synthetic
`WindowEvent::Redraw` through the event-loop proxy with `.unwrap()` (a
panic when the channel is closed), and, when the root window view is
present, calls the platform `request_redraw` directly. -/
def animationSchedulerBranch (p : Params) (s : AppState) (eff : Effects) :
    Except Panic (AppState × Effects) :=
  if has_animations s then
    if p.proxyOpen then
      if s.windowPresent then
        Except.ok ({ s with storedControlFlow := ControlFlow.poll },
          { eff with
            proxySends := eff.proxySends ++ [Ev.redraw],
            redrawByAnimation := eff.redrawByAnimation + 1 })
      else
        Except.ok ({ s with storedControlFlow := ControlFlow.poll },
          { eff with proxySends := eff.proxySends ++ [Ev.redraw] })
    else
      Except.error Panic.sendRedrawUnwrap
  else
    Except.ok (s, eff)

/-- From application.rs lines 313-322: the redraw arbiter removes the root
window view, and if it is a `Window` and `needs_redraw` is set it requests
one platform redraw and clears the flag; the number of requests it makes. -/
def arbiterRedrawCount (s : AppState) : Nat :=
  if s.windowPresent && s.needsRedraw then 1 else 0

/-- From application.rs lines 313-322: the state effect of the redraw
arbiter (the flag is cleared whenever the window view is present and the
flag was set). -/
def redrawArbiter (s : AppState) : AppState :=
  if s.windowPresent then { s with needsRedraw := false } else s

/-- From application.rs lines 324-327 and the spec contract of the idle
callback: when registered it runs once per settled iteration and may
enqueue events. -/
def idleHook (p : Params) (s : AppState) : AppState :=
  if p.hasIdleCallback then { s with queue := s.queue ++ s.idleEvents, idleEvents := [] }
  else s

/-- From application.rs lines 329-334: if events are queued after the idle
hook, force `ControlFlow::Poll` and send an empty wake-up event through the
event-loop proxy with `.expect(..)` (a panic when the channel is closed). -/
def queuedEventsCheck (p : Params) (s : AppState) (eff : Effects) :
    Except Panic (AppState × Effects) :=
  if s.queue.isEmpty then
    Except.ok (s, eff)
  else
    if p.proxyOpen then
      Except.ok ({ s with storedControlFlow := ControlFlow.poll },
        { eff with proxySends := eff.proxySends ++ [Ev.wake] })
    else
      Except.error Panic.sendWakeExpect

/-- From application.rs lines 270-283: the start of a `MainEventsCleared`
dispatch resets the stored control flow to the caller default and runs the
event-flush fixed-point loop. -/
def afterFlush (p : Params) (s : AppState) : AppState :=
  { s with
    storedControlFlow := if p.defaultShouldPoll then ControlFlow.poll else ControlFlow.wait,
    queue := flushLoop p.react p.flushFuel s.queue }

/-- The state after data propagation and accessibility sync, just before
style resolution (application.rs lines 285-292). -/
def preStyleState (p : Params) (s : AppState) : AppState :=
  processTreeUpdates (processDataUpdates (afterFlush p s))

/-- The state after style resolution, at the animation check
(application.rs line 295). -/
def preAnimState (p : Params) (s : AppState) : AppState :=
  processStyleUpdates (preStyleState p s)

/-- The effects accumulated before the animation check: the first four
stage markers, the accesskit batch count, and the queue snapshot at the
moment `process_style_updates` is invoked. -/
def preAnimEffects (p : Params) (s : AppState) : Effects :=
  { trace := [Stage.eventFlush, Stage.dataPropagation, Stage.accessibilitySync,
              Stage.styleResolution],
    accessUpdates := accessUpdateCount (processDataUpdates (afterFlush p s)),
    queueAtStyle := (preStyleState p s).queue }

/-- From application.rs lines 311-334: the back half of a
`MainEventsCleared` dispatch after the animation check — visual update,
redraw arbiter, idle hook, and the queued-events continuation decision —
applied to the state and effects the animation check produced. -/
def afterAnimPhase (p : Params) (s1 : AppState) (eff1 : Effects) :
    Except Panic (AppState × Effects) :=
  queuedEventsCheck p (idleHook p (redrawArbiter (processVisualUpdates s1)))
    { eff1 with
      trace := (eff1.trace ++ [Stage.animationCheck, Stage.visualUpdate, Stage.redrawArbiter]) ++
        [Stage.idleHook],
      needsRedrawAtArbiter := (processVisualUpdates s1).needsRedraw,
      redrawByArbiter := eff1.redrawByArbiter + arbiterRedrawCount (processVisualUpdates s1),
      queueAfterIdle := (idleHook p (redrawArbiter (processVisualUpdates s1))).queue }

/-- From application.rs lines 270-335: one full `MainEventsCleared`
dispatch, in source order: default control-flow reset, event-flush fixed
point, data propagation, accessibility sync, style resolution, animation
check, visual update, redraw arbiter, idle hook, queued-events
continuation decision. -/
def mainEventsCleared (p : Params) (s : AppState) : Except Panic (AppState × Effects) :=
  match animationSchedulerBranch p (preAnimState p s) (preAnimEffects p s) with
  | Except.error e => Except.error e
  | Except.ok (s1, eff1) =>
    match afterAnimPhase p s1 eff1 with
    | Except.error e => Except.error e
    | Except.ok (s5, eff4) =>
      Except.ok (s5, { eff4 with trace := eff4.trace ++ [Stage.continuationDecision] })

/-- The proxy sends performed by the animation branch. -/
def animSends (s : AppState) : List Ev :=
  if has_animations s then [Ev.redraw] else []

/-- The direct platform redraw requests performed by the animation branch. -/
def animRedrawCount (s : AppState) : Nat :=
  if has_animations s && s.windowPresent then 1 else 0

/-- The state right after the animation check of a successful dispatch. -/
def postAnimState (p : Params) (s : AppState) : AppState :=
  { preAnimState p s with
    storedControlFlow :=
      if has_animations (preAnimState p s) then ControlFlow.poll
      else (preAnimState p s).storedControlFlow }

/-- The state right after the idle hook, at the queued-events check. -/
def endQueueState (p : Params) (s : AppState) : AppState :=
  idleHook p (redrawArbiter (processVisualUpdates (postAnimState p s)))

/-- Closed form of the state a successful `MainEventsCleared` dispatch
returns. -/
def finalState (p : Params) (s : AppState) : AppState :=
  { endQueueState p s with
    storedControlFlow :=
      if (endQueueState p s).queue.isEmpty then (endQueueState p s).storedControlFlow
      else ControlFlow.poll }

/-- Closed form of the effects a successful `MainEventsCleared` dispatch
returns. -/
def finalEffects (p : Params) (s : AppState) : Effects :=
  { trace := pipelineOrder
    redrawByAnimation := animRedrawCount (preAnimState p s)
    redrawByArbiter := arbiterRedrawCount (processVisualUpdates (postAnimState p s))
    proxySends :=
      animSends (preAnimState p s) ++
        (if (endQueueState p s).queue.isEmpty then [] else [Ev.wake])
    accessUpdates := accessUpdateCount (processDataUpdates (afterFlush p s))
    queueAtStyle := (preStyleState p s).queue
    needsRedrawAtArbiter := (processVisualUpdates (postAnimState p s)).needsRedraw
    queueAfterIdle := (endQueueState p s).queue }

/-- From application.rs lines 344-346: `WindowEvent::CloseRequested` sets
the stored control flow to `ControlFlow::Exit`. -/
def handleCloseRequested (s : AppState) : AppState :=
  { s with storedControlFlow := ControlFlow.exit }

/-- From application.rs lines 462-494: `WindowEvent::Resized` with a
physical size stores the logical size (physical divided by the current dpi
factor) in the root style width/height, the physical size in the root
cache width/height and clip region, and sets all three invalidation
flags. -/
def handleResized (w h : ℚ) (s : AppState) : AppState :=
  { s with
    styleWidth := Units.pixels (w / s.dpiFactor),
    styleHeight := Units.pixels (h / s.dpiFactor),
    cacheWidth := w,
    cacheHeight := h,
    clipWidth := w,
    clipHeight := h,
    needsRestyle := true,
    needsRelayout := true,
    needsRedraw := true }

/-- From application.rs lines 357-375: `WindowEvent::ScaleFactorChanged`
stores the new dpi factor, writes the physical size into the root cache
width/height, and the logical size (computed with the new dpi factor) into
the root style width/height; it touches no invalidation flag. -/
def handleScaleFactorChanged (scaleFactor w h : ℚ) (s : AppState) : AppState :=
  { s with
    dpiFactor := scaleFactor,
    cacheWidth := w,
    cacheHeight := h,
    styleWidth := Units.pixels (w / scaleFactor),
    styleHeight := Units.pixels (h / scaleFactor) }

/-- The host-delivered winit events the `event_loop.run` closure matches
on (the ones relevant to the claims; every other arm is a no-op here). -/
inductive HostEvent where
  | userEvent : Ev → HostEvent
  | mainEventsCleared : HostEvent
  | closeRequested : HostEvent
  | resized : ℚ → ℚ → HostEvent
  | scaleFactorChanged : ℚ → ℚ → ℚ → HostEvent
  | other : HostEvent

/-- From application.rs lines 229-511: one invocation of the event-loop
closure for one host event; the control flow handed back to winit at line
510 is the stored control flow of the returned state. -/
def handleHostEvent (p : Params) (ev : HostEvent) (s : AppState) :
    Except Panic (AppState × Effects) :=
  match ev with
  | HostEvent.userEvent e => Except.ok ({ s with queue := s.queue ++ [e] }, {})
  | HostEvent.mainEventsCleared => mainEventsCleared p s
  | HostEvent.closeRequested => Except.ok (handleCloseRequested s, {})
  | HostEvent.resized w h => Except.ok (handleResized w h s, {})
  | HostEvent.scaleFactorChanged sf w h => Except.ok (handleScaleFactorChanged sf w h s, {})
  | HostEvent.other => Except.ok (s, {})

/-- Folding the closure over a sequence of host-delivered events. -/
def runEvents (p : Params) : List HostEvent → AppState → Except Panic AppState
  | [], s => Except.ok s
  | ev :: rest, s =>
    match handleHostEvent p ev s with
    | Except.error e => Except.error e
    | Except.ok (s1, _) => runEvents p rest s1

/-- Handlers that enqueue nothing (well-behaved reactions). -/
def quietReact : Ev → List Ev := fun _ => []

/-- Baseline configuration: default Wait, proxy channel open, no idle
callback, quiet handlers. -/
def p0 : Params :=
  { defaultShouldPoll := false, proxyOpen := true, hasIdleCallback := false,
    react := quietReact, flushFuel := 1 }

/-- The baseline configuration with the proxy channel torn down. -/
def pClosed : Params :=
  { p0 with proxyOpen := false }

/-- The baseline configuration with an idle callback registered. -/
def pIdle : Params :=
  { p0 with hasIdleCallback := true }

/-- A quiescent state: empty queues, no invalidation, no animations, no
root window view. -/
def s0 : AppState :=
  { queue := [], dirtyBindingEvents := [], idleEvents := [], treeDirty := false,
    needsRestyle := false, needsRelayout := false, needsRedraw := false,
    hasAnimations := false, styleSetsRelayout := false, styleSetsRedraw := false,
    visualSetsRedraw := false, windowPresent := false, dpiFactor := 1,
    cacheWidth := 0, cacheHeight := 0, clipWidth := 0, clipHeight := 0,
    styleWidth := Units.auto, styleHeight := Units.auto,
    storedControlFlow := ControlFlow.wait }

/-- Quiescent state with one dirty binding that will emit an event during
data propagation. -/
def sData : AppState :=
  { s0 with dirtyBindingEvents := [Ev.user 0] }

/-- Quiescent state with an active animation and the root window view
present. -/
def sAnim : AppState :=
  { s0 with hasAnimations := true, windowPresent := true }

/-- Active animation, window present, and the redraw flag already set. -/
def sRedraw : AppState :=
  { sAnim with needsRedraw := true }

/-- Quiescent state whose idle callback will enqueue one event. -/
def sIdle : AppState :=
  { s0 with idleEvents := [Ev.user 1] }

/-- Quiescent state at scale factor 2. -/
def sDpi2 : AppState :=
  { s0 with dpiFactor := 2 }

/-- Expected effects of a dispatch on the quiescent state. -/
def eff0 : Effects :=
  { trace := pipelineOrder }

/-- Expected result state for `sAnim`. -/
def sAnimOut : AppState :=
  { sAnim with storedControlFlow := ControlFlow.poll }

/-- Expected effects for `sAnim`. -/
def effAnim : Effects :=
  { trace := pipelineOrder, redrawByAnimation := 1, proxySends := [Ev.redraw] }

/-- Expected result state for `sRedraw`. -/
def sRedrawOut : AppState :=
  { sRedraw with storedControlFlow := ControlFlow.poll, needsRedraw := false }

/-- Expected effects for `sRedraw`. -/
def effRedraw : Effects :=
  { trace := pipelineOrder, redrawByAnimation := 1, redrawByArbiter := 1,
    proxySends := [Ev.redraw], needsRedrawAtArbiter := true }

/-- Expected result state for `sData`. -/
def sDataOut : AppState :=
  { sData with
    queue := [Ev.user 0]
    dirtyBindingEvents := []
    storedControlFlow := ControlFlow.poll }

/-- Expected effects for `sData`. -/
def effData : Effects :=
  { trace := pipelineOrder, proxySends := [Ev.wake], queueAtStyle := [Ev.user 0],
    queueAfterIdle := [Ev.user 0] }

/-- Expected result state for `sIdle` under `pIdle`. -/
def sIdleOut : AppState :=
  { sIdle with
    queue := [Ev.user 1]
    idleEvents := []
    storedControlFlow := ControlFlow.poll }

/-- Expected effects for `sIdle` under `pIdle`. -/
def effIdle : Effects :=
  { trace := pipelineOrder, proxySends := [Ev.wake], queueAfterIdle := [Ev.user 1] }

/-- An empty effects record. -/
def effEmpty : Effects := {}

/-- Expected effects of the animation branch alone on `sAnim` starting
from empty effects. -/
def effAnimBranch : Effects :=
  { proxySends := [Ev.redraw], redrawByAnimation := 1 }

/-! ## Stage projection lemmas -/

@[simp]
theorem processTreeUpdates_queue (s : AppState) :
    (processTreeUpdates s).queue = s.queue := by
  unfold processTreeUpdates; split <;> rfl

@[simp]
theorem processTreeUpdates_hasAnimations (s : AppState) :
    (processTreeUpdates s).hasAnimations = s.hasAnimations := by
  unfold processTreeUpdates; split <;> rfl

@[simp]
theorem processTreeUpdates_windowPresent (s : AppState) :
    (processTreeUpdates s).windowPresent = s.windowPresent := by
  unfold processTreeUpdates; split <;> rfl

@[simp]
theorem processTreeUpdates_storedControlFlow (s : AppState) :
    (processTreeUpdates s).storedControlFlow = s.storedControlFlow := by
  unfold processTreeUpdates; split <;> rfl

@[simp]
theorem processStyleUpdates_queue (s : AppState) :
    (processStyleUpdates s).queue = s.queue := by
  unfold processStyleUpdates; split <;> rfl

@[simp]
theorem processStyleUpdates_hasAnimations (s : AppState) :
    (processStyleUpdates s).hasAnimations = s.hasAnimations := by
  unfold processStyleUpdates; split <;> rfl

@[simp]
theorem processStyleUpdates_windowPresent (s : AppState) :
    (processStyleUpdates s).windowPresent = s.windowPresent := by
  unfold processStyleUpdates; split <;> rfl

@[simp]
theorem processStyleUpdates_storedControlFlow (s : AppState) :
    (processStyleUpdates s).storedControlFlow = s.storedControlFlow := by
  unfold processStyleUpdates; split <;> rfl

@[simp]
theorem processVisualUpdates_storedControlFlow (s : AppState) :
    (processVisualUpdates s).storedControlFlow = s.storedControlFlow := by
  unfold processVisualUpdates; split <;> rfl

@[simp]
theorem processVisualUpdates_windowPresent (s : AppState) :
    (processVisualUpdates s).windowPresent = s.windowPresent := by
  unfold processVisualUpdates; split <;> rfl

@[simp]
theorem processVisualUpdates_queue (s : AppState) :
    (processVisualUpdates s).queue = s.queue := by
  unfold processVisualUpdates; split <;> rfl

@[simp]
theorem redrawArbiter_storedControlFlow (s : AppState) :
    (redrawArbiter s).storedControlFlow = s.storedControlFlow := by
  unfold redrawArbiter; split <;> rfl

@[simp]
theorem redrawArbiter_queue (s : AppState) :
    (redrawArbiter s).queue = s.queue := by
  unfold redrawArbiter; split <;> rfl

@[simp]
theorem redrawArbiter_windowPresent (s : AppState) :
    (redrawArbiter s).windowPresent = s.windowPresent := by
  unfold redrawArbiter; split <;> rfl

theorem redrawArbiter_needsRedraw (s : AppState) :
    (redrawArbiter s).needsRedraw = if s.windowPresent then false else s.needsRedraw := by
  unfold redrawArbiter; split <;> simp [*]

@[simp]
theorem idleHook_storedControlFlow (p : Params) (s : AppState) :
    (idleHook p s).storedControlFlow = s.storedControlFlow := by
  unfold idleHook; split <;> rfl

@[simp]
theorem idleHook_needsRedraw (p : Params) (s : AppState) :
    (idleHook p s).needsRedraw = s.needsRedraw := by
  unfold idleHook; split <;> rfl

@[simp]
theorem idleHook_windowPresent (p : Params) (s : AppState) :
    (idleHook p s).windowPresent = s.windowPresent := by
  unfold idleHook; split <;> rfl

@[simp]
theorem preAnimState_hasAnimations (p : Params) (s : AppState) :
    (preAnimState p s).hasAnimations = s.hasAnimations := by
  simp [preAnimState, preStyleState, processDataUpdates, afterFlush]

@[simp]
theorem preAnimState_windowPresent (p : Params) (s : AppState) :
    (preAnimState p s).windowPresent = s.windowPresent := by
  simp [preAnimState, preStyleState, processDataUpdates, afterFlush]

@[simp]
theorem preAnimState_storedControlFlow (p : Params) (s : AppState) :
    (preAnimState p s).storedControlFlow =
      if p.defaultShouldPoll then ControlFlow.poll else ControlFlow.wait := by
  simp [preAnimState, preStyleState, processDataUpdates, afterFlush]

theorem preStyleState_queue (p : Params) (s : AppState) :
    (preStyleState p s).queue =
      flushLoop p.react p.flushFuel s.queue ++ s.dirtyBindingEvents := by
  simp [preStyleState, processDataUpdates, afterFlush]

/-! ## Branch characterization lemmas -/

theorem animationSchedulerBranch_ok_elim {p : Params} {s : AppState} {eff : Effects}
    {s' : AppState} {eff' : Effects}
    (h : animationSchedulerBranch p s eff = Except.ok (s', eff')) :
    s' = { s with storedControlFlow :=
            if has_animations s then ControlFlow.poll else s.storedControlFlow } ∧
    eff' = { eff with
             proxySends := eff.proxySends ++ animSends s,
             redrawByAnimation := eff.redrawByAnimation + animRedrawCount s } := by
  unfold animationSchedulerBranch at h
  split at h
  case isTrue ha =>
    split at h
    case isTrue hp =>
      split at h
      case isTrue hw =>
        injection h with h1
        injection h1 with h2 h3
        subst h2 h3
        simp [animSends, animRedrawCount, ha, hw]
      case isFalse hw =>
        injection h with h1
        injection h1 with h2 h3
        subst h2 h3
        simp [animSends, animRedrawCount, ha, hw]
    case isFalse hp =>
      exact absurd h (by simp)
  case isFalse ha =>
    injection h with h1
    injection h1 with h2 h3
    subst h2 h3
    simp [animSends, animRedrawCount, ha]

theorem animationSchedulerBranch_sendFails {p : Params} {s : AppState} {eff : Effects}
    (hanim : has_animations s = true) (hopen : p.proxyOpen = false) :
    animationSchedulerBranch p s eff = Except.error Panic.sendRedrawUnwrap := by
  unfold animationSchedulerBranch
  simp [hanim, hopen]

theorem queuedEventsCheck_ok_elim {p : Params} {s : AppState} {eff : Effects}
    {s' : AppState} {eff' : Effects}
    (h : queuedEventsCheck p s eff = Except.ok (s', eff')) :
    s' = { s with storedControlFlow :=
            if s.queue.isEmpty then s.storedControlFlow else ControlFlow.poll } ∧
    eff' = { eff with
             proxySends := eff.proxySends ++ (if s.queue.isEmpty then [] else [Ev.wake]) } := by
  unfold queuedEventsCheck at h
  split at h
  case isTrue hq =>
    injection h with h1
    injection h1 with h2 h3
    subst h2 h3
    simp [hq]
  case isFalse hq =>
    split at h
    case isTrue hp =>
      injection h with h1
      injection h1 with h2 h3
      subst h2 h3
      simp [hq]
    case isFalse hp =>
      exact absurd h (by simp)

/-- Master elimination lemma: a successful `MainEventsCleared` dispatch
returns exactly the closed-form state and effects. -/
theorem mainEventsCleared_ok_elim {p : Params} {s : AppState}
    {s' : AppState} {eff : Effects}
    (h : mainEventsCleared p s = Except.ok (s', eff)) :
    s' = finalState p s ∧ eff = finalEffects p s := by
  unfold mainEventsCleared at h
  split at h
  next e hab => exact absurd h (by simp)
  next s1 eff1 hab =>
    split at h
    next e hqc => exact absurd h (by simp)
    next s5 eff4 hqc =>
      unfold afterAnimPhase at hqc
      injection h with h1
      injection h1 with h2 h3
      subst h2 h3
      obtain ⟨hs5, heff4⟩ := queuedEventsCheck_ok_elim hqc
      subst hs5 heff4
      obtain ⟨hs1, heff1⟩ := animationSchedulerBranch_ok_elim hab
      subst hs1 heff1
      constructor
      · simp [finalState, endQueueState, postAnimState, preAnimEffects]
      · simp [finalEffects, endQueueState, postAnimState, preAnimEffects, pipelineOrder]

/-! ## Claim theorems -/

/-- Claim C1: in every `MainEventsCleared` dispatch the pipeline stages
execute in the fixed order event-flush fixed point, data propagation,
accessibility sync, style resolution, animation check, visual update,
redraw arbiter, idle hook, continuation decision; no stage runs out of
this order within an iteration. -/
theorem mainLoop_stage_order (p : Params) (s : AppState) (s' : AppState) (eff : Effects)
    (h : mainEventsCleared p s = Except.ok (s', eff)) :
    eff.trace = pipelineOrder := by
  obtain ⟨-, heff⟩ := mainEventsCleared_ok_elim h
  subst heff
  rfl

/-- Witness for Claim C1 at a concrete quiescent run. -/
theorem mainLoop_stage_order_witness :
    mainEventsCleared p0 s0 = Except.ok (s0, eff0) ∧ eff0.trace = pipelineOrder :=
  ⟨rfl, mainLoop_stage_order p0 s0 s0 eff0 rfl⟩

/-- Claim C2 counterexample: even with the flush fixed point reached, an
event produced by data propagation (one dirty binding emitting `user 0`)
is still pending at the moment `process_style_updates` is invoked, so the
Event Queue is not empty there. -/
theorem queue_at_style_nonempty_counterexample :
    flushLoop p0.react p0.flushFuel sData.queue = [] ∧
    (mainEventsCleared p0 sData).map (fun r => r.2.queueAtStyle) =
      Except.ok [Ev.user 0] ∧
    ([Ev.user 0] : List Ev) ≠ [] :=
  ⟨rfl, rfl, by decide⟩

/-- Claim C2 amended: the flush fixed point empties the Event Queue before
data propagation runs, so the queue at the moment `process_style_updates`
is invoked holds exactly the events data propagation produced; those are
flushed only in the next iteration. -/
theorem queue_at_style_eq_binding_events (p : Params) (s : AppState)
    (s' : AppState) (eff : Effects)
    (hflush : flushLoop p.react p.flushFuel s.queue = [])
    (h : mainEventsCleared p s = Except.ok (s', eff)) :
    eff.queueAtStyle = s.dirtyBindingEvents := by
  obtain ⟨-, heff⟩ := mainEventsCleared_ok_elim h
  subst heff
  show (finalEffects p s).queueAtStyle = s.dirtyBindingEvents
  simp [finalEffects, preStyleState_queue, hflush]

/-- Witness for the amended Claim C2 at a concrete run with one dirty
binding. -/
theorem queue_at_style_eq_binding_events_witness :
    flushLoop p0.react p0.flushFuel sData.queue = [] ∧
    mainEventsCleared p0 sData = Except.ok (sDataOut, effData) ∧
    effData.queueAtStyle = sData.dirtyBindingEvents :=
  ⟨rfl, rfl, queue_at_style_eq_binding_events p0 sData sDataOut effData rfl rfl⟩

/-- Claim C3: whenever `has_animations` is true at the animation check
(after style resolution), a successful iteration ends with stored control
flow Poll, regardless of the configured default and of whether events
remain queued. -/
theorem active_animations_force_poll (p : Params) (s : AppState)
    (s' : AppState) (eff : Effects)
    (hanim : has_animations (preAnimState p s) = true)
    (h : mainEventsCleared p s = Except.ok (s', eff)) :
    s'.storedControlFlow = ControlFlow.poll := by
  obtain ⟨hs, -⟩ := mainEventsCleared_ok_elim h
  subst hs
  show (finalState p s).storedControlFlow = ControlFlow.poll
  simp [finalState, endQueueState, postAnimState, hanim]

/-- Witness for Claim C3 at a concrete run with an active animation. -/
theorem active_animations_force_poll_witness :
    has_animations (preAnimState p0 sAnim) = true ∧
    mainEventsCleared p0 sAnim = Except.ok (sAnimOut, effAnim) ∧
    sAnimOut.storedControlFlow = ControlFlow.poll :=
  ⟨rfl, rfl, active_animations_force_poll p0 sAnim sAnimOut effAnim rfl rfl⟩

/-- Claim C4 counterexample: with an active animation and the root window
view present, the animation branch performs one direct platform
`request_redraw` call, so it is not true that the branch never calls it. -/
theorem animation_branch_redraws_counterexample :
    (animationSchedulerBranch p0 sAnim effEmpty).map
        (fun r => r.2.redrawByAnimation) = Except.ok 1 ∧
    (1 : Nat) ≠ 0 :=
  ⟨rfl, by decide⟩

/-- Claim C4 amended: when `has_animations` is true the branch forces Poll
and enqueues a synthetic redraw-request event through the event-loop
proxy, but it also calls the platform `request_redraw` directly once when
the root window view is present. -/
theorem animation_branch_behavior (p : Params) (s : AppState) (eff : Effects)
    (s' : AppState) (eff' : Effects)
    (hanim : has_animations s = true) (hwin : s.windowPresent = true)
    (h : animationSchedulerBranch p s eff = Except.ok (s', eff')) :
    s'.storedControlFlow = ControlFlow.poll ∧
    eff'.proxySends = eff.proxySends ++ [Ev.redraw] ∧
    eff'.redrawByAnimation = eff.redrawByAnimation + 1 := by
  obtain ⟨hs, he⟩ := animationSchedulerBranch_ok_elim h
  subst hs he
  simp [animSends, animRedrawCount, hanim, hwin]

/-- Witness for the amended Claim C4 at a concrete branch run. -/
theorem animation_branch_behavior_witness :
    has_animations sAnim = true ∧ sAnim.windowPresent = true ∧
    animationSchedulerBranch p0 sAnim effEmpty = Except.ok (sAnimOut, effAnimBranch) ∧
    (sAnimOut.storedControlFlow = ControlFlow.poll ∧
     effAnimBranch.proxySends = effEmpty.proxySends ++ [Ev.redraw] ∧
     effAnimBranch.redrawByAnimation = effEmpty.redrawByAnimation + 1) :=
  ⟨rfl, rfl, rfl, animation_branch_behavior p0 sAnim effEmpty sAnimOut effAnimBranch rfl rfl rfl⟩

/-- Claim C5 counterexample: in an iteration with an active animation and
`needs_redraw` set, the platform `request_redraw` is called twice (once by
the animation branch, once by the redraw arbiter), not exactly once. -/
theorem redraw_requested_twice_counterexample :
    (mainEventsCleared p0 sRedraw).map
        (fun r => r.2.redrawByAnimation + r.2.redrawByArbiter) = Except.ok 2 ∧
    (2 : Nat) ≠ 1 :=
  ⟨rfl, by decide⟩

/-- Claim C5 amended: when the root window view is present, the redraw
arbiter itself calls `request_redraw` exactly once per iteration if
`needs_redraw` is true when it runs and zero times otherwise, clearing the
flag immediately after; the iteration total also includes one direct call
from the animation branch when animations are active. -/
theorem redraw_arbiter_debounce (p : Params) (s : AppState)
    (s' : AppState) (eff : Effects)
    (hwin : s.windowPresent = true)
    (h : mainEventsCleared p s = Except.ok (s', eff)) :
    eff.redrawByArbiter = (if eff.needsRedrawAtArbiter then 1 else 0) ∧
    s'.needsRedraw = false ∧
    eff.redrawByAnimation + eff.redrawByArbiter =
      (if s.hasAnimations then 1 else 0) +
        (if eff.needsRedrawAtArbiter then 1 else 0) := by
  obtain ⟨hs, heff⟩ := mainEventsCleared_ok_elim h
  subst hs heff
  refine ⟨?_, ?_, ?_⟩
  · show (finalEffects p s).redrawByArbiter =
      if (finalEffects p s).needsRedrawAtArbiter then 1 else 0
    simp [finalEffects, arbiterRedrawCount, postAnimState, hwin]
  · show (finalState p s).needsRedraw = false
    simp [finalState, endQueueState, redrawArbiter_needsRedraw, postAnimState, hwin]
  · show (finalEffects p s).redrawByAnimation + (finalEffects p s).redrawByArbiter =
      (if s.hasAnimations then 1 else 0) +
        (if (finalEffects p s).needsRedrawAtArbiter then 1 else 0)
    simp [finalEffects, arbiterRedrawCount, animRedrawCount, postAnimState,
      has_animations, hwin]

/-- Witness for the amended Claim C5 at a concrete run with animation and
redraw flag both active. -/
theorem redraw_arbiter_debounce_witness :
    sRedraw.windowPresent = true ∧
    mainEventsCleared p0 sRedraw = Except.ok (sRedrawOut, effRedraw) ∧
    (effRedraw.redrawByArbiter = (if effRedraw.needsRedrawAtArbiter then 1 else 0) ∧
     sRedrawOut.needsRedraw = false ∧
     effRedraw.redrawByAnimation + effRedraw.redrawByArbiter =
       (if sRedraw.hasAnimations then 1 else 0) +
         (if effRedraw.needsRedrawAtArbiter then 1 else 0)) :=
  ⟨rfl, rfl, redraw_arbiter_debounce p0 sRedraw sRedrawOut effRedraw rfl rfl⟩

/-- Claim C6 counterexample: a close request does set the decision to Exit
at the end of its own dispatch, but a subsequent `MainEventsCleared`
dispatch resets the stored decision to the caller default (Wait here), so
the Exit decision is overwritten by a later default reset and another
pipeline iteration runs. -/
theorem exit_overwritten_counterexample :
    (handleHostEvent p0 HostEvent.closeRequested s0).map
        (fun r => r.1.storedControlFlow) = Except.ok ControlFlow.exit ∧
    runEvents p0 [HostEvent.closeRequested, HostEvent.mainEventsCleared] s0 =
      Except.ok s0 ∧
    s0.storedControlFlow = ControlFlow.wait ∧
    ControlFlow.wait ≠ ControlFlow.exit :=
  ⟨rfl, rfl, rfl, by decide⟩

/-- Claim C6 amended: observing a close request makes the decision at the
end of that dispatch Exit, but the handler itself does not preserve it: a
later `MainEventsCleared` dispatch always ends with a non-Exit decision
(Poll or Wait), so termination relies on the host loop treating an Exit
decision as final rather than on this code. -/
theorem close_requested_exit_decision (p : Params) (s : AppState) :
    (handleHostEvent p HostEvent.closeRequested s).map
        (fun r => r.1.storedControlFlow) = Except.ok ControlFlow.exit ∧
    (∀ s' eff, mainEventsCleared p s = Except.ok (s', eff) →
      s'.storedControlFlow ≠ ControlFlow.exit) := by
  refine ⟨rfl, ?_⟩
  intro s' eff h
  obtain ⟨hs, -⟩ := mainEventsCleared_ok_elim h
  subst hs
  show (finalState p s).storedControlFlow ≠ ControlFlow.exit
  have h1 : (finalState p s).storedControlFlow =
      if (endQueueState p s).queue.isEmpty then (endQueueState p s).storedControlFlow
      else ControlFlow.poll := rfl
  have h2 : (endQueueState p s).storedControlFlow =
      if has_animations (preAnimState p s) then ControlFlow.poll
      else if p.defaultShouldPoll then ControlFlow.poll else ControlFlow.wait := by
    simp [endQueueState, postAnimState]
  rw [h1, h2]
  split
  · split
    · decide
    · split <;> decide
  · decide

/-- Witness for the amended Claim C6 at a concrete quiescent run. -/
theorem close_requested_exit_decision_witness :
    (handleHostEvent p0 HostEvent.closeRequested s0).map
        (fun r => r.1.storedControlFlow) = Except.ok ControlFlow.exit ∧
    s0.storedControlFlow ≠ ControlFlow.exit :=
  ⟨(close_requested_exit_decision p0 s0).1,
   (close_requested_exit_decision p0 s0).2 s0 eff0 rfl⟩

/-- Claim C7: if the Event Queue is non-empty after the idle hook has run,
a successful iteration ends with stored control flow Poll — even when the
default is Wait and no animations are active — and an empty wake-up event
is sent through the event-loop proxy. -/
theorem idle_rearm_forces_poll (p : Params) (s : AppState)
    (s' : AppState) (eff : Effects)
    (h : mainEventsCleared p s = Except.ok (s', eff))
    (hq : eff.queueAfterIdle ≠ []) :
    s'.storedControlFlow = ControlFlow.poll ∧ Ev.wake ∈ eff.proxySends := by
  obtain ⟨hs, heff⟩ := mainEventsCleared_ok_elim h
  subst hs heff
  have hq2 : (endQueueState p s).queue ≠ [] := hq
  have hq3 : (endQueueState p s).queue.isEmpty = false := by
    cases hl : (endQueueState p s).queue with
    | nil => exact absurd hl hq2
    | cons a l => rfl
  constructor
  · show (finalState p s).storedControlFlow = ControlFlow.poll
    simp [finalState, hq3]
  · show Ev.wake ∈ (finalEffects p s).proxySends
    simp [finalEffects, hq3]

/-- Witness for Claim C7 at a concrete run whose idle callback enqueues
one event while the default is Wait and no animation is active. -/
theorem idle_rearm_forces_poll_witness :
    mainEventsCleared pIdle sIdle = Except.ok (sIdleOut, effIdle) ∧
    effIdle.queueAfterIdle ≠ [] ∧
    (sIdleOut.storedControlFlow = ControlFlow.poll ∧ Ev.wake ∈ effIdle.proxySends) :=
  ⟨rfl, by decide, idle_rearm_forces_poll pIdle sIdle sIdleOut effIdle rfl (by decide)⟩

/-- Claim C8: a resize to physical size (800,600) while the scale factor
is 2 stores the logical size (400,300) in the root style width/height and
sets `needs_restyle`, `needs_relayout` and `needs_redraw`. -/
theorem resize_scenario (s : AppState) (hdpi : s.dpiFactor = 2) :
    (handleResized 800 600 s).styleWidth = Units.pixels 400 ∧
    (handleResized 800 600 s).styleHeight = Units.pixels 300 ∧
    (handleResized 800 600 s).needsRestyle = true ∧
    (handleResized 800 600 s).needsRelayout = true ∧
    (handleResized 800 600 s).needsRedraw = true := by
  unfold handleResized
  refine ⟨?_, ?_, rfl, rfl, rfl⟩ <;> rw [hdpi] <;> norm_num

/-- Witness for Claim C8 at the concrete state with scale factor 2. -/
theorem resize_scenario_witness :
    sDpi2.dpiFactor = 2 ∧
    ((handleResized 800 600 sDpi2).styleWidth = Units.pixels 400 ∧
     (handleResized 800 600 sDpi2).styleHeight = Units.pixels 300 ∧
     (handleResized 800 600 sDpi2).needsRestyle = true ∧
     (handleResized 800 600 sDpi2).needsRelayout = true ∧
     (handleResized 800 600 sDpi2).needsRedraw = true) :=
  ⟨rfl, resize_scenario sDpi2 rfl⟩

/-- Claim C9 counterexample: with the proxy channel closed and an active
animation, the main loop panics (`.unwrap()` on the redraw send), so it is
not true that no pipeline send panics on a channel failure. -/
theorem pipeline_send_panic_counterexample :
    mainEventsCleared pClosed sAnim = Except.error Panic.sendRedrawUnwrap := rfl

/-- Claim C9 amended: `WinitEventProxy::send` itself reports a channel
failure as a non-fatal `Err(())` result to the sender, but the two sends
the main loop performs directly on the raw event-loop proxy use
`.unwrap()` / `.expect(..)` and panic when the channel is closed. -/
theorem proxy_send_failure_behavior (b : Bool) (p : Params) (s : AppState)
    (hopen : p.proxyOpen = false)
    (hanim : has_animations (preAnimState p s) = true) :
    (winitEventProxySendResult b = Except.error () ↔ b = false) ∧
    mainEventsCleared p s = Except.error Panic.sendRedrawUnwrap := by
  constructor
  · cases b <;> simp [winitEventProxySendResult]
  · unfold mainEventsCleared
    rw [animationSchedulerBranch_sendFails hanim hopen]

/-- Witness for the amended Claim C9 at a closed channel with an active
animation. -/
theorem proxy_send_failure_behavior_witness :
    pClosed.proxyOpen = false ∧
    has_animations (preAnimState pClosed sAnim) = true ∧
    ((winitEventProxySendResult false = Except.error () ↔ false = false) ∧
     mainEventsCleared pClosed sAnim = Except.error Panic.sendRedrawUnwrap) :=
  ⟨rfl, rfl, proxy_send_failure_behavior false pClosed sAnim rfl rfl⟩

/-- Claim C10: handling a scale-factor change stores the new dpi factor,
the physical size in the root cache width/height, and the logical size in
the root style width/height, but leaves all three invalidation flags
unchanged — unlike the resize handler, which sets all three. -/
theorem scale_factor_changed_no_invalidation (sf w h : ℚ) (s : AppState) :
    (handleScaleFactorChanged sf w h s).dpiFactor = sf ∧
    (handleScaleFactorChanged sf w h s).cacheWidth = w ∧
    (handleScaleFactorChanged sf w h s).cacheHeight = h ∧
    (handleScaleFactorChanged sf w h s).styleWidth = Units.pixels (w / sf) ∧
    (handleScaleFactorChanged sf w h s).styleHeight = Units.pixels (h / sf) ∧
    (handleScaleFactorChanged sf w h s).needsRestyle = s.needsRestyle ∧
    (handleScaleFactorChanged sf w h s).needsRelayout = s.needsRelayout ∧
    (handleScaleFactorChanged sf w h s).needsRedraw = s.needsRedraw ∧
    (handleResized w h s).needsRestyle = true ∧
    (handleResized w h s).needsRelayout = true ∧
    (handleResized w h s).needsRedraw = true :=
  ⟨rfl, rfl, rfl, rfl, rfl, rfl, rfl, rfl, rfl, rfl, rfl⟩

end ViziaWinit
